import Mathlib

/-!
Shallow embedding of `programs/custom_token_program/src/lib.rs`, an Anchor
program with four instructions: `create_token_mint`, `delegate_tokens`,
`freeze_token_account`, `thaw_token_account`.

Modelling conventions:
  * `Pubkey` is `Nat`; byte strings are `List Nat`.
  * The addressing scheme (`Pubkey::create_program_address`) and the external
    token ledger's responses are an explicit environment `Env`; the program's
    own logic is embedded faithfully.
  * Each instruction returns `Except ProgErr Unit` together with the list of
    CPI calls it transmitted to the external token ledger.
  * Rust panics (the `mint_authority.unwrap()` on `None`, and
    `find_program_address` aborting when no bump seed is viable) are modelled
    as dedicated error outcomes `unwrapPanic` and `derivationExhausted`,
    since a panic deterministically aborts the transaction.
  * Anchor's generated account validation (`try_accounts`) runs before the
    instruction body, checking per field, in declaration order: signer flags,
    `constraint = ...` expressions, and `seeds`/`bump` PDA checks.
-/

set_option maxRecDepth 8192

abbrev Pubkey := Nat

/-- An external ledger error code, passed through unchanged. -/
abbrev LedgerErr := Nat

/-- Account metadata as the program sees it: the address and the signer flag. -/
structure AccountInfo where
  key : Pubkey
  isSigner : Bool
deriving DecidableEq

/-- SPL `Mint` state, as deserialized by `Account<Mint>`.
`mint_authority` and `freeze_authority` are `COption<Pubkey>` in SPL. -/
structure Mint where
  mint_authority : Option Pubkey
  freeze_authority : Option Pubkey
  decimals : Nat
deriving DecidableEq

/-- SPL `TokenAccount` state, as deserialized by `Account<TokenAccount>`.
`frozen` abstracts SPL's `state == AccountState::Frozen`. -/
structure TokenAccount where
  mint : Pubkey
  owner : Pubkey
  amount : Nat
  delegate : Option Pubkey
  delegatedAmount : Nat
  frozen : Bool
deriving DecidableEq

/-- A typed account: its address together with its deserialized data. -/
structure MintAcc where
  key : Pubkey
  data : Mint
deriving DecidableEq

/-- A typed token account: its address together with its deserialized data. -/
structure TokenAccountAcc where
  key : Pubkey
  data : TokenAccount
deriving DecidableEq

/-- The program's `#[error_code]` enum: its only variant is `Unauthorized`. -/
inductive CustomError where
  | unauthorized
deriving DecidableEq

/-- Every way an instruction of this program can fail.
`constraintRaw` is Anchor's error for a failed `constraint = ...` (the
mint/token-account structural link); `constraintSeeds` for a PDA address
mismatch; `accountNotSigner` for a missing signature on a `Signer` field.
`derivationExhausted` models the abort of `Pubkey::find_program_address`
when no bump seed yields a valid program address; `unwrapPanic` models the
panic of `Option::unwrap` on an absent `mint_authority`.  `ledger e`
surfaces an external-ledger (CPI) error `e` unchanged. -/
inductive ProgErr where
  | custom : CustomError → ProgErr
  | constraintRaw
  | constraintSeeds
  | accountNotSigner
  | derivationExhausted
  | unwrapPanic
  | ledger : LedgerErr → ProgErr
deriving DecidableEq

/-- An authority proof attached to a CPI to the token ledger: either the
caller's own signature passed through (`CpiContext::new`), or a PDA
derivation proof, i.e. the seeds and bump handed to
`CpiContext::new_with_signer`. -/
inductive AuthorityProof where
  | signature : Pubkey → AuthorityProof
  | pdaProof : List Nat → Nat → AuthorityProof
deriving DecidableEq

/-- A call transmitted to the external token ledger (an SPL-token CPI, or the
mint initialization performed by Anchor's `init` constraint). -/
inductive LedgerCall where
  | approve : Pubkey → Pubkey → Nat → AuthorityProof → LedgerCall
  | freezeAccount : Pubkey → Pubkey → AuthorityProof → LedgerCall
  | thawAccount : Pubkey → Pubkey → AuthorityProof → LedgerCall
  | initializeMint : Pubkey → Nat → Pubkey → Option Pubkey → LedgerCall
deriving DecidableEq

/-- The environment: the addressing scheme and the external ledger's verdict
on each kind of CPI.  `createProgramAddress seeds bump` is
`Pubkey::create_program_address(seeds ++ [bump])`: `some pk` when the
resulting address is valid (off-curve), `none` otherwise.  A `none` result
field means the ledger accepted the call; `some e` that it failed with `e`. -/
structure Env where
  createProgramAddress : List Nat → Nat → Option Pubkey
  approveResult : Option LedgerErr
  freezeResult : Option LedgerErr
  thawResult : Option LedgerErr
  initMintResult : Option LedgerErr

/-- `find_program_address`'s search, trying bump seeds from `b` down to `0`. -/
def tryBumps (env : Env) (seeds : List Nat) : Nat → Option (Pubkey × Nat)
  | 0 => (env.createProgramAddress seeds 0).map (fun pk => (pk, 0))
  | b + 1 =>
    match env.createProgramAddress seeds (b + 1) with
    | some pk => some (pk, b + 1)
    | none => tryBumps env seeds b

/-- `Pubkey::find_program_address(seeds, program_id)`: tries bump seeds from
255 downward and returns the first valid (address, bump) pair. -/
def findProgramAddress (env : Env) (seeds : List Nat) : Option (Pubkey × Nat) :=
  tryBumps env seeds 255

/-- The seed literal `b"authority"` of the `program_authority` field of the
`CreateTokenMint` accounts struct. -/
def createTokenMintAuthoritySeeds : List Nat :=
  [97, 117, 116, 104, 111, 114, 105, 116, 121]

/-- The seed literal `b"authority"` of the `program_authority` field of the
`FreezeOrThawAccount` accounts struct. -/
def freezeOrThawAuthoritySeeds : List Nat :=
  [97, 117, 116, 104, 111, 114, 105, 116, 121]

/-- The seed literal `"authority".as_bytes()` in the body of
`freeze_token_account`, used to build the CPI signer proof. -/
def freezeHandlerSeeds : List Nat :=
  [97, 117, 116, 104, 111, 114, 105, 116, 121]

/-- The seed literal `"authority".as_bytes()` in the body of
`thaw_token_account`, used to build the CPI signer proof. -/
def thawHandlerSeeds : List Nat :=
  [97, 117, 116, 104, 111, 114, 105, 116, 121]

/-- The accounts of the `CreateTokenMint` context (programs and rent sysvar
omitted: they are fixed program ids with no program-visible state). -/
structure CreateTokenMintAccounts where
  mint : AccountInfo
  program_authority : AccountInfo
  payer : AccountInfo

/-- The accounts of the `DelegateTokens` context. -/
structure DelegateTokensAccounts where
  token_account : TokenAccountAcc
  delegate : AccountInfo
  owner : AccountInfo

/-- The accounts of the `FreezeOrThawAccount` context, shared by
`freeze_token_account` and `thaw_token_account`. -/
structure FreezeOrThawAccounts where
  admin : AccountInfo
  token_account_to_process : TokenAccountAcc
  mint : MintAcc
  program_authority : AccountInfo

/-- Instruction 1, `create_token_mint(decimals, mint_authority)`.  The body
is empty; Anchor's constraints check that `payer` signed and that
`program_authority` is the PDA of `[b"authority"]`, then the `init`
constraint has the token ledger initialize the new mint with the given
decimals and mint authority, and `freeze_authority = program_authority.key()`.
(Transaction atomicity collapses the ordering of the `init` CPI against the
other checks: a reverted transaction has no observable effect.) -/
def create_token_mint (env : Env) (ctx : CreateTokenMintAccounts)
    (decimals : Nat) (mint_authority : Pubkey) :
    Except ProgErr Unit × List LedgerCall :=
  if ctx.payer.isSigner then
    match findProgramAddress env createTokenMintAuthoritySeeds with
    | none => (.error .derivationExhausted, [])
    | some (pda, _bump) =>
      if ctx.program_authority.key = pda then
        let call : LedgerCall :=
          .initializeMint ctx.mint.key decimals mint_authority
            (some ctx.program_authority.key)
        match env.initMintResult with
        | some e => (.error (.ledger e), [call])
        | none => (.ok (), [call])
      else (.error .constraintSeeds, [])
  else (.error .accountNotSigner, [])

/-- Instruction 2, `delegate_tokens(amount)`: after Anchor checks that
`owner` signed, the body forwards an `Approve` CPI to the token ledger with
the owner's own signature as authority; `delegate` is an unchecked account. -/
def delegate_tokens (env : Env) (ctx : DelegateTokensAccounts) (amount : Nat) :
    Except ProgErr Unit × List LedgerCall :=
  if ctx.owner.isSigner then
    let call : LedgerCall :=
      .approve ctx.token_account.key ctx.delegate.key amount
        (.signature ctx.owner.key)
    match env.approveResult with
    | some e => (.error (.ledger e), [call])
    | none => (.ok (), [call])
  else (.error .accountNotSigner, [])

/-- Instruction 3, `freeze_token_account`.  Anchor validation in field order:
`admin` must have signed; `constraint = mint.key() == token_account_to_process.mint`;
`program_authority` must be the PDA of `[b"authority"]` (deriving its bump).
The body then requires `admin.key() == mint.mint_authority.unwrap()`
(error `Unauthorized`), and forwards a `FreezeAccount` CPI signed with the
PDA seeds and the derived bump. -/
def freeze_token_account (env : Env) (ctx : FreezeOrThawAccounts) :
    Except ProgErr Unit × List LedgerCall :=
  if ctx.admin.isSigner then
    if ctx.mint.key = ctx.token_account_to_process.data.mint then
      match findProgramAddress env freezeOrThawAuthoritySeeds with
      | none => (.error .derivationExhausted, [])
      | some (pda, bump) =>
        if ctx.program_authority.key = pda then
          match ctx.mint.data.mint_authority with
          | none => (.error .unwrapPanic, [])
          | some auth =>
            if ctx.admin.key = auth then
              let call : LedgerCall :=
                .freezeAccount ctx.token_account_to_process.key ctx.mint.key
                  (.pdaProof freezeHandlerSeeds bump)
              match env.freezeResult with
              | some e => (.error (.ledger e), [call])
              | none => (.ok (), [call])
            else (.error (.custom .unauthorized), [])
        else (.error .constraintSeeds, [])
    else (.error .constraintRaw, [])
  else (.error .accountNotSigner, [])

/-- Instruction 4, `thaw_token_account`: identical validation and
authorization to `freeze_token_account`, forwarding a `ThawAccount` CPI
signed with the PDA seeds and the derived bump. -/
def thaw_token_account (env : Env) (ctx : FreezeOrThawAccounts) :
    Except ProgErr Unit × List LedgerCall :=
  if ctx.admin.isSigner then
    if ctx.mint.key = ctx.token_account_to_process.data.mint then
      match findProgramAddress env freezeOrThawAuthoritySeeds with
      | none => (.error .derivationExhausted, [])
      | some (pda, bump) =>
        if ctx.program_authority.key = pda then
          match ctx.mint.data.mint_authority with
          | none => (.error .unwrapPanic, [])
          | some auth =>
            if ctx.admin.key = auth then
              let call : LedgerCall :=
                .thawAccount ctx.token_account_to_process.key ctx.mint.key
                  (.pdaProof thawHandlerSeeds bump)
              match env.thawResult with
              | some e => (.error (.ledger e), [call])
              | none => (.ok (), [call])
            else (.error (.custom .unauthorized), [])
        else (.error .constraintSeeds, [])
    else (.error .constraintRaw, [])
  else (.error .accountNotSigner, [])

/-- The external ledger's effect of one accepted call on a token account with
address `key` (modelling the capability interface the program consumes: an
`approve` sets delegate and delegated amount, `freezeAccount`/`thawAccount`
set the frozen flag; a call the ledger rejected has no effect). -/
def ledgerApplyCall (env : Env) (key : Pubkey) (acc : TokenAccount) :
    LedgerCall → TokenAccount
  | .approve k d a _ =>
    if env.approveResult = none ∧ k = key then
      { acc with delegate := some d, delegatedAmount := a }
    else acc
  | .freezeAccount k _ _ =>
    if env.freezeResult = none ∧ k = key then { acc with frozen := true }
    else acc
  | .thawAccount k _ _ =>
    if env.thawResult = none ∧ k = key then { acc with frozen := false }
    else acc
  | .initializeMint _ _ _ _ => acc

/-- The external ledger's effect of a list of transmitted calls on the token
account with address `key`. -/
def ledgerApply (env : Env) (key : Pubkey) (acc : TokenAccount)
    (calls : List LedgerCall) : TokenAccount :=
  calls.foldl (ledgerApplyCall env key) acc

/-- The mint record a transmitted `initializeMint` call asks the ledger to
create. -/
def mintRecordOfInit : LedgerCall → Option Mint
  | .initializeMint _ d a f =>
    some { mint_authority := some a, freeze_authority := f, decimals := d }
  | _ => none

/-! ### Concrete fixtures used by witnesses and counterexamples -/

/-- A concrete addressing scheme in which every bump is valid, bump `b`
yielding address `1000 + b` (so `find_program_address` picks `(1255, 255)`),
and a ledger that accepts every call. -/
def envW : Env :=
  { createProgramAddress := fun _ b => some (1000 + b)
    approveResult := none
    freezeResult := none
    thawResult := none
    initMintResult := none }

/-- Like `envW` but the ledger rejects the `Approve` CPI with error code 7. -/
def envRejectApprove : Env :=
  { createProgramAddress := fun _ b => some (1000 + b)
    approveResult := some 7
    freezeResult := none
    thawResult := none
    initMintResult := none }

/-- An addressing scheme with no viable bump seed for any label. -/
def envExhausted : Env :=
  { createProgramAddress := fun _ _ => none
    approveResult := none
    freezeResult := none
    thawResult := none
    initMintResult := none }

/-- A token account at address 50 for the mint at address 10, owned by 60. -/
def acctW : TokenAccountAcc :=
  { key := 50
    data := { mint := 10, owner := 60, amount := 0, delegate := none
              delegatedAmount := 0, frozen := false } }

/-- The mint at address 10, mint authority 70, PDA freeze authority. -/
def mintW : MintAcc :=
  { key := 10
    data := { mint_authority := some 70, freeze_authority := some 1255
              decimals := 6 } }

/-- A freeze/thaw context whose admin (70) is the mint authority and whose
mint is the one the token account references. -/
def ftCtxW : FreezeOrThawAccounts :=
  { admin := { key := 70, isSigner := true }
    token_account_to_process := acctW
    mint := mintW
    program_authority := { key := 1255, isSigner := false } }

/-- A freeze/thaw context whose mint (address 11) is not the mint referenced
by the token account (address 10), and whose admin (71) is also not the mint
authority (70). -/
def ftCtxMismatch : FreezeOrThawAccounts :=
  { admin := { key := 71, isSigner := true }
    token_account_to_process := acctW
    mint := { key := 11, data := mintW.data }
    program_authority := { key := 1255, isSigner := false } }

/-- A freeze/thaw context whose mint has no mint authority; admin signs and
the structural link holds. -/
def ftCtxNoneAuth : FreezeOrThawAccounts :=
  { admin := { key := 70, isSigner := true }
    token_account_to_process := acctW
    mint := { key := 10
              data := { mint_authority := none
                        freeze_authority := some 1255, decimals := 6 } }
    program_authority := { key := 1255, isSigner := false } }

/-- A delegation context: the signer (60) is the recorded owner of the token
account; the delegate (80) is an arbitrary fresh identity. -/
def delCtxW : DelegateTokensAccounts :=
  { token_account := acctW
    delegate := { key := 80, isSigner := false }
    owner := { key := 60, isSigner := true } }

/-- A delegation context whose signer (61) is NOT the recorded owner (60) of
the token account. -/
def delCtxMismatch : DelegateTokensAccounts :=
  { token_account := acctW
    delegate := { key := 80, isSigner := false }
    owner := { key := 61, isSigner := true } }

/-- A mint-provisioning context: new mint at address 10, the PDA account at
the derived address 1255, payer 90 signing. -/
def cmCtxW : CreateTokenMintAccounts :=
  { mint := { key := 10, isSigner := false }
    program_authority := { key := 1255, isSigner := false }
    payer := { key := 90, isSigner := true } }

/-! ### Claim theorems -/

/-- C8: Authority derivation is deterministic across sites: the provisioning
struct (`CreateTokenMint`), the freeze/thaw struct (`FreezeOrThawAccount`)
and both handler bodies all derive from the identical seed label, so for any
addressing scheme the derived (identity, bump) pair is identical at every
site. -/
theorem authority_derivation_deterministic_across_sites (env : Env) :
    findProgramAddress env createTokenMintAuthoritySeeds =
      findProgramAddress env freezeOrThawAuthoritySeeds ∧
    createTokenMintAuthoritySeeds = freezeOrThawAuthoritySeeds ∧
    freezeOrThawAuthoritySeeds = freezeHandlerSeeds ∧
    freezeHandlerSeeds = thawHandlerSeeds :=
  ⟨rfl, rfl, rfl, rfl⟩

/-- C3: a structural mismatch between the supplied mint and the token
account's recorded mint is rejected with Anchor's constraint error
(`StructuralMismatch`) before the authorization check runs — for every
admin, in particular one that is not the mint authority either. -/
theorem structural_mismatch_rejected_before_authorization
    (env : Env) (ctx : FreezeOrThawAccounts)
    (hs : ctx.admin.isSigner = true)
    (hm : ctx.mint.key ≠ ctx.token_account_to_process.data.mint) :
    (freeze_token_account env ctx).fst = Except.error ProgErr.constraintRaw ∧
    (thaw_token_account env ctx).fst = Except.error ProgErr.constraintRaw := by
  simp [freeze_token_account, thaw_token_account, hs, hm]

/-- C3 witness: concrete rejection with `constraintRaw`, on a context whose
admin is also not the mint authority. -/
theorem structural_mismatch_rejected_before_authorization_witness :
    (freeze_token_account envW ftCtxMismatch).fst =
      Except.error ProgErr.constraintRaw ∧
    (thaw_token_account envW ftCtxMismatch).fst =
      Except.error ProgErr.constraintRaw :=
  structural_mismatch_rejected_before_authorization envW ftCtxMismatch
    rfl (by decide)

/-- C6: `delegate_tokens` forwards exactly one `Approve` call with the
supplied delegate identity, the supplied amount and the owner's own
signature as authority, for every delegate identity; it succeeds exactly
when the ledger accepts, performing no local authorization logic. -/
theorem delegate_forwards_arbitrary_delegate
    (env : Env) (ctx : DelegateTokensAccounts) (amount : Nat)
    (hs : ctx.owner.isSigner = true) :
    (delegate_tokens env ctx amount).snd =
      [LedgerCall.approve ctx.token_account.key ctx.delegate.key amount
        (AuthorityProof.signature ctx.owner.key)] ∧
    ((delegate_tokens env ctx amount).fst = Except.ok () ↔
      env.approveResult = none) := by
  rcases har : env.approveResult with _ | e <;>
    simp [delegate_tokens, hs, har]

/-- C6 witness: delegating to the previously-unseen identity 80 forwards the
approve call with delegate 80, amount 100, owner 60's signature. -/
theorem delegate_forwards_arbitrary_delegate_witness :
    (delegate_tokens envW delCtxW 100).snd =
      [LedgerCall.approve delCtxW.token_account.key delCtxW.delegate.key 100
        (AuthorityProof.signature delCtxW.owner.key)] ∧
    ((delegate_tokens envW delCtxW 100).fst = Except.ok () ↔
      envW.approveResult = none) :=
  delegate_forwards_arbitrary_delegate envW delCtxW 100 rfl

/-- C10: `delegate_tokens` never compares the signer against the token
account's recorded owner: even when they differ, the approve call is
forwarded with the signer as authority, and the operation's outcome is
exactly the external ledger's verdict, its error surfaced unchanged. -/
theorem delegate_no_local_owner_check
    (env : Env) (ctx : DelegateTokensAccounts) (amount : Nat)
    (hs : ctx.owner.isSigner = true)
    (_hmm : ctx.owner.key ≠ ctx.token_account.data.owner) :
    (delegate_tokens env ctx amount).snd =
      [LedgerCall.approve ctx.token_account.key ctx.delegate.key amount
        (AuthorityProof.signature ctx.owner.key)] ∧
    (delegate_tokens env ctx amount).fst =
      Option.elim env.approveResult (Except.ok ())
        (fun e => Except.error (ProgErr.ledger e)) := by
  rcases har : env.approveResult with _ | e <;>
    simp [delegate_tokens, hs, har]

/-- C10 witness: signer 61 differs from the recorded owner 60; the call is
still forwarded with 61's signature and the ledger's rejection (error 7) is
surfaced unchanged. -/
theorem delegate_no_local_owner_check_witness :
    (delegate_tokens envRejectApprove delCtxMismatch 100).snd =
      [LedgerCall.approve delCtxMismatch.token_account.key
        delCtxMismatch.delegate.key 100
        (AuthorityProof.signature delCtxMismatch.owner.key)] ∧
    (delegate_tokens envRejectApprove delCtxMismatch 100).fst =
      Option.elim envRejectApprove.approveResult (Except.ok ())
        (fun e => Except.error (ProgErr.ledger e)) :=
  delegate_no_local_owner_check envRejectApprove delCtxMismatch 100
    rfl (by decide)

/-- C4: whenever the admin's identity is not the mint's recorded mint
authority (including when that authority is absent), freeze and thaw
transmit no ledger call at all — in particular no call carrying the derived
authority's PDA proof — since the equality check precedes the CPI. -/
theorem no_pda_proof_transmitted_without_authorization
    (env : Env) (ctx : FreezeOrThawAccounts)
    (h : ctx.mint.data.mint_authority ≠ some ctx.admin.key) :
    (freeze_token_account env ctx).snd = [] ∧
    (thaw_token_account env ctx).snd = [] := by
  unfold freeze_token_account thaw_token_account
  constructor <;> (repeat' split) <;> simp_all

/-- C4 witness: admin 71 is not the mint authority 70; no ledger call is
transmitted by either operation. -/
theorem no_pda_proof_transmitted_without_authorization_witness :
    (freeze_token_account envW
      { ftCtxW with admin := { key := 71, isSigner := true } }).snd = [] ∧
    (thaw_token_account envW
      { ftCtxW with admin := { key := 71, isSigner := true } }).snd = [] :=
  no_pda_proof_transmitted_without_authorization envW
    { ftCtxW with admin := { key := 71, isSigner := true } } (by decide)

/-- C5: on a mint whose `mint_authority` is absent, neither freeze nor thaw
can ever succeed, and no ledger call is transmitted; when the call otherwise
reaches the authorization step, its outcome is exactly the deterministic
`unwrap` panic on the absent authority field. -/
theorem absent_mint_authority_blocks_freeze_thaw
    (env : Env) (ctx : FreezeOrThawAccounts)
    (h : ctx.mint.data.mint_authority = none) :
    (freeze_token_account env ctx).fst ≠ Except.ok () ∧
    (freeze_token_account env ctx).snd = [] ∧
    (thaw_token_account env ctx).fst ≠ Except.ok () ∧
    (thaw_token_account env ctx).snd = [] ∧
    (ctx.admin.isSigner = true →
      ctx.mint.key = ctx.token_account_to_process.data.mint →
      Option.map Prod.fst (findProgramAddress env freezeOrThawAuthoritySeeds) =
        some ctx.program_authority.key →
      (freeze_token_account env ctx).fst = Except.error ProgErr.unwrapPanic ∧
      (thaw_token_account env ctx).fst = Except.error ProgErr.unwrapPanic) := by
  refine ⟨?_, ?_, ?_, ?_, ?_⟩
  · unfold freeze_token_account; (repeat' split) <;> simp_all
  · unfold freeze_token_account; (repeat' split) <;> simp_all
  · unfold thaw_token_account; (repeat' split) <;> simp_all
  · unfold thaw_token_account; (repeat' split) <;> simp_all
  · intro hs hm hp
    rcases hd : findProgramAddress env freezeOrThawAuthoritySeeds with _ | ⟨pda, bump⟩
    · rw [hd] at hp; simp at hp
    · rw [hd] at hp; simp at hp
      simp [freeze_token_account, thaw_token_account, hs, hm, hd, hp, h]

/-- C5 witness: on the concrete mint with absent authority, freeze and thaw
fail, transmit nothing, and (the boilerplate being valid) both end in the
deterministic unwrap panic. -/
theorem absent_mint_authority_blocks_freeze_thaw_witness :
    (freeze_token_account envW ftCtxNoneAuth).fst ≠ Except.ok () ∧
    (freeze_token_account envW ftCtxNoneAuth).snd = [] ∧
    (thaw_token_account envW ftCtxNoneAuth).fst ≠ Except.ok () ∧
    (thaw_token_account envW ftCtxNoneAuth).snd = [] ∧
    (ftCtxNoneAuth.admin.isSigner = true →
      ftCtxNoneAuth.mint.key =
        ftCtxNoneAuth.token_account_to_process.data.mint →
      Option.map Prod.fst (findProgramAddress envW freezeOrThawAuthoritySeeds) =
        some ftCtxNoneAuth.program_authority.key →
      (freeze_token_account envW ftCtxNoneAuth).fst =
        Except.error ProgErr.unwrapPanic ∧
      (thaw_token_account envW ftCtxNoneAuth).fst =
        Except.error ProgErr.unwrapPanic) :=
  absent_mint_authority_blocks_freeze_thaw envW ftCtxNoneAuth rfl

/-- C2: whenever `create_token_mint(d, a)` succeeds, the single
initialization it transmitted asks the ledger for a mint record with
`decimals = d`, `mint_authority = a`, and `freeze_authority` equal to the
program authority derived from the fixed label. -/
theorem create_token_mint_initializes_with_derived_freeze_authority
    (env : Env) (ctx : CreateTokenMintAccounts) (d : Nat) (a : Pubkey)
    (hok : (create_token_mint env ctx d a).fst = Except.ok ()) :
    (create_token_mint env ctx d a).snd =
      [LedgerCall.initializeMint ctx.mint.key d a
        (some ctx.program_authority.key)] ∧
    Option.map Prod.fst (findProgramAddress env createTokenMintAuthoritySeeds) =
      some ctx.program_authority.key ∧
    mintRecordOfInit
        (LedgerCall.initializeMint ctx.mint.key d a
          (some ctx.program_authority.key)) =
      some { mint_authority := some a
             freeze_authority := some ctx.program_authority.key
             decimals := d } := by
  unfold create_token_mint at hok ⊢
  (repeat' split at hok) <;> simp_all [mintRecordOfInit]

/-- C2 witness: a concrete successful provisioning with decimals 6, mint
authority 70; the transmitted record carries the derived freeze authority. -/
theorem create_token_mint_initializes_with_derived_freeze_authority_witness :
    (create_token_mint envW cmCtxW 6 70).snd =
      [LedgerCall.initializeMint cmCtxW.mint.key 6 70
        (some cmCtxW.program_authority.key)] ∧
    Option.map Prod.fst (findProgramAddress envW createTokenMintAuthoritySeeds) =
      some cmCtxW.program_authority.key ∧
    mintRecordOfInit
        (LedgerCall.initializeMint cmCtxW.mint.key 6 70
          (some cmCtxW.program_authority.key)) =
      some { mint_authority := some 70
             freeze_authority := some cmCtxW.program_authority.key
             decimals := 6 } :=
  create_token_mint_initializes_with_derived_freeze_authority envW cmCtxW 6 70
    rfl

/-- C7: a freeze or thaw call that passes the structural and authorization
checks transmits exactly one ledger call — freeze/thaw of the named token
account of the supplied mint, signed with the PDA proof (fixed label seeds
and re-derived bump) — and, when the ledger accepts, its effect is exactly
setting the account's frozen flag to true (freeze) or false (thaw). -/
theorem authorized_freeze_thaw_transmits_pda_signed_toggle
    (env : Env) (ctx : FreezeOrThawAccounts) (pda bump : Nat)
    (hs : ctx.admin.isSigner = true)
    (hm : ctx.mint.key = ctx.token_account_to_process.data.mint)
    (ha : ctx.mint.data.mint_authority = some ctx.admin.key)
    (hd : findProgramAddress env freezeOrThawAuthoritySeeds = some (pda, bump))
    (hp : ctx.program_authority.key = pda) :
    (freeze_token_account env ctx).snd =
      [LedgerCall.freezeAccount ctx.token_account_to_process.key ctx.mint.key
        (AuthorityProof.pdaProof freezeHandlerSeeds bump)] ∧
    (thaw_token_account env ctx).snd =
      [LedgerCall.thawAccount ctx.token_account_to_process.key ctx.mint.key
        (AuthorityProof.pdaProof thawHandlerSeeds bump)] ∧
    (env.freezeResult = none →
      ledgerApply env ctx.token_account_to_process.key
          ctx.token_account_to_process.data (freeze_token_account env ctx).snd =
        { ctx.token_account_to_process.data with frozen := true }) ∧
    (env.thawResult = none →
      ledgerApply env ctx.token_account_to_process.key
          ctx.token_account_to_process.data (thaw_token_account env ctx).snd =
        { ctx.token_account_to_process.data with frozen := false }) := by
  have hfsnd : (freeze_token_account env ctx).snd =
      [LedgerCall.freezeAccount ctx.token_account_to_process.key ctx.mint.key
        (AuthorityProof.pdaProof freezeHandlerSeeds bump)] := by
    rcases hfr : env.freezeResult with _ | e <;>
      simp [freeze_token_account, hs, hm, hd, hp, ha, hfr]
  have htsnd : (thaw_token_account env ctx).snd =
      [LedgerCall.thawAccount ctx.token_account_to_process.key ctx.mint.key
        (AuthorityProof.pdaProof thawHandlerSeeds bump)] := by
    rcases htr : env.thawResult with _ | e <;>
      simp [thaw_token_account, hs, hm, hd, hp, ha, htr]
  refine ⟨hfsnd, htsnd, ?_, ?_⟩
  · intro hfr; rw [hfsnd]; simp [ledgerApply, ledgerApplyCall, hfr]
  · intro htr; rw [htsnd]; simp [ledgerApply, ledgerApplyCall, htr]

/-- C7 witness: the authorized admin 70 freezing/thawing account 50 of mint
10 transmits exactly the PDA-signed freeze/thaw call, and the accepted calls
set and clear the frozen flag. -/
theorem authorized_freeze_thaw_transmits_pda_signed_toggle_witness :
    (freeze_token_account envW ftCtxW).snd =
      [LedgerCall.freezeAccount ftCtxW.token_account_to_process.key
        ftCtxW.mint.key (AuthorityProof.pdaProof freezeHandlerSeeds 255)] ∧
    (thaw_token_account envW ftCtxW).snd =
      [LedgerCall.thawAccount ftCtxW.token_account_to_process.key
        ftCtxW.mint.key (AuthorityProof.pdaProof thawHandlerSeeds 255)] ∧
    (envW.freezeResult = none →
      ledgerApply envW ftCtxW.token_account_to_process.key
          ftCtxW.token_account_to_process.data
          (freeze_token_account envW ftCtxW).snd =
        { ftCtxW.token_account_to_process.data with frozen := true }) ∧
    (envW.thawResult = none →
      ledgerApply envW ftCtxW.token_account_to_process.key
          ftCtxW.token_account_to_process.data
          (thaw_token_account envW ftCtxW).snd =
        { ftCtxW.token_account_to_process.data with frozen := false }) :=
  authorized_freeze_thaw_transmits_pda_signed_toggle envW ftCtxW 1255 255
    rfl rfl rfl rfl rfl

/-- C1 (amended): with valid boilerplate (admin signs, the program-authority
account matches the derived PDA, the ledger accepts), freeze and thaw
succeed exactly when the admin is the mint's recorded mint authority and the
supplied mint is the one the token account references; every other
combination fails with `Unauthorized`, `StructuralMismatch`
(`constraintRaw`), or — when `mint_authority` is absent — the unwrap panic,
and transmits no call, leaving the account's frozen flag unchanged. -/
theorem freeze_thaw_success_iff_authorized_and_linked
    (env : Env) (ctx : FreezeOrThawAccounts) (pda bump : Nat)
    (hs : ctx.admin.isSigner = true)
    (hd : findProgramAddress env freezeOrThawAuthoritySeeds = some (pda, bump))
    (hp : ctx.program_authority.key = pda)
    (hfr : env.freezeResult = none) (htr : env.thawResult = none) :
    ((freeze_token_account env ctx).fst = Except.ok () ↔
      (ctx.mint.data.mint_authority = some ctx.admin.key ∧
       ctx.mint.key = ctx.token_account_to_process.data.mint)) ∧
    ((thaw_token_account env ctx).fst = Except.ok () ↔
      (ctx.mint.data.mint_authority = some ctx.admin.key ∧
       ctx.mint.key = ctx.token_account_to_process.data.mint)) ∧
    ((freeze_token_account env ctx).fst ≠ Except.ok () →
      ((freeze_token_account env ctx).fst =
          Except.error (ProgErr.custom CustomError.unauthorized) ∨
       (freeze_token_account env ctx).fst = Except.error ProgErr.constraintRaw ∨
       (freeze_token_account env ctx).fst = Except.error ProgErr.unwrapPanic) ∧
      ledgerApply env ctx.token_account_to_process.key
          ctx.token_account_to_process.data (freeze_token_account env ctx).snd =
        ctx.token_account_to_process.data) ∧
    ((thaw_token_account env ctx).fst ≠ Except.ok () →
      ((thaw_token_account env ctx).fst =
          Except.error (ProgErr.custom CustomError.unauthorized) ∨
       (thaw_token_account env ctx).fst = Except.error ProgErr.constraintRaw ∨
       (thaw_token_account env ctx).fst = Except.error ProgErr.unwrapPanic) ∧
      ledgerApply env ctx.token_account_to_process.key
          ctx.token_account_to_process.data (thaw_token_account env ctx).snd =
        ctx.token_account_to_process.data) := by
  by_cases hm : ctx.mint.key = ctx.token_account_to_process.data.mint
  · rcases hauth : ctx.mint.data.mint_authority with _ | auth
    · simp [freeze_token_account, thaw_token_account, ledgerApply, hs, hd, hp,
        hm, hauth]
    · by_cases hadm : ctx.admin.key = auth
      · simp [freeze_token_account, thaw_token_account, ledgerApply, hs, hd,
          hp, hm, hauth, hadm, hfr, htr]
      · have hadm2 : ¬auth = ctx.admin.key := fun h => hadm h.symm
        simp [freeze_token_account, thaw_token_account, ledgerApply, hs, hd,
          hp, hm, hauth, hadm, hadm2]
  · simp [freeze_token_account, thaw_token_account, ledgerApply, hs, hd, hp,
      hm]

/-- C1 counterexample: on a mint whose `mint_authority` is absent, with the
structural link holding and all boilerplate valid, freeze fails — but with
the unwrap panic, which is neither `Unauthorized` nor the structural
constraint error, contradicting the claim that every failing combination
yields `Unauthorized` or `StructuralMismatch`. -/
theorem freeze_absent_authority_not_unauthorized_cex :
    ftCtxNoneAuth.mint.key =
      ftCtxNoneAuth.token_account_to_process.data.mint ∧
    (freeze_token_account envW ftCtxNoneAuth).fst =
      Except.error ProgErr.unwrapPanic ∧
    ProgErr.unwrapPanic ≠ ProgErr.custom CustomError.unauthorized ∧
    ProgErr.unwrapPanic ≠ ProgErr.constraintRaw :=
  ⟨rfl, rfl, by decide, by decide⟩

/-- C1 witness: the amended claim applied to the concrete authorized
context. -/
theorem freeze_thaw_success_iff_authorized_and_linked_witness :
    ((freeze_token_account envW ftCtxW).fst = Except.ok () ↔
      (ftCtxW.mint.data.mint_authority = some ftCtxW.admin.key ∧
       ftCtxW.mint.key = ftCtxW.token_account_to_process.data.mint)) ∧
    ((thaw_token_account envW ftCtxW).fst = Except.ok () ↔
      (ftCtxW.mint.data.mint_authority = some ftCtxW.admin.key ∧
       ftCtxW.mint.key = ftCtxW.token_account_to_process.data.mint)) ∧
    ((freeze_token_account envW ftCtxW).fst ≠ Except.ok () →
      ((freeze_token_account envW ftCtxW).fst =
          Except.error (ProgErr.custom CustomError.unauthorized) ∨
       (freeze_token_account envW ftCtxW).fst =
          Except.error ProgErr.constraintRaw ∨
       (freeze_token_account envW ftCtxW).fst =
          Except.error ProgErr.unwrapPanic) ∧
      ledgerApply envW ftCtxW.token_account_to_process.key
          ftCtxW.token_account_to_process.data
          (freeze_token_account envW ftCtxW).snd =
        ftCtxW.token_account_to_process.data) ∧
    ((thaw_token_account envW ftCtxW).fst ≠ Except.ok () →
      ((thaw_token_account envW ftCtxW).fst =
          Except.error (ProgErr.custom CustomError.unauthorized) ∨
       (thaw_token_account envW ftCtxW).fst =
          Except.error ProgErr.constraintRaw ∨
       (thaw_token_account envW ftCtxW).fst =
          Except.error ProgErr.unwrapPanic) ∧
      ledgerApply envW ftCtxW.token_account_to_process.key
          ftCtxW.token_account_to_process.data
          (thaw_token_account envW ftCtxW).snd =
        ftCtxW.token_account_to_process.data) :=
  freeze_thaw_success_iff_authorized_and_linked envW ftCtxW 1255 255
    rfl rfl rfl rfl rfl

/-- C9: when the addressing scheme admits no viable bump seed for the fixed
label, every operation that needs the program authority — provisioning,
freeze and thaw — fails with exactly the derivation-exhaustion abort (no
other error) and transmits nothing. -/
theorem derivation_exhaustion_fails_all_authority_operations
    (env : Env) (cctx : CreateTokenMintAccounts) (d : Nat) (a : Pubkey)
    (ctx : FreezeOrThawAccounts)
    (hex : findProgramAddress env freezeOrThawAuthoritySeeds = none)
    (hpayer : cctx.payer.isSigner = true)
    (hs : ctx.admin.isSigner = true)
    (hm : ctx.mint.key = ctx.token_account_to_process.data.mint) :
    (create_token_mint env cctx d a).fst =
      Except.error ProgErr.derivationExhausted ∧
    (create_token_mint env cctx d a).snd = [] ∧
    (freeze_token_account env ctx).fst =
      Except.error ProgErr.derivationExhausted ∧
    (freeze_token_account env ctx).snd = [] ∧
    (thaw_token_account env ctx).fst =
      Except.error ProgErr.derivationExhausted ∧
    (thaw_token_account env ctx).snd = [] := by
  have hex2 : findProgramAddress env createTokenMintAuthoritySeeds = none := hex
  simp [create_token_mint, freeze_token_account, thaw_token_account, hpayer,
    hs, hm, hex, hex2]

/-- C9 witness: under the exhausted addressing scheme, provisioning, freeze
and thaw all fail with the derivation-exhaustion abort. -/
theorem derivation_exhaustion_fails_all_authority_operations_witness :
    (create_token_mint envExhausted cmCtxW 6 70).fst =
      Except.error ProgErr.derivationExhausted ∧
    (create_token_mint envExhausted cmCtxW 6 70).snd = [] ∧
    (freeze_token_account envExhausted ftCtxW).fst =
      Except.error ProgErr.derivationExhausted ∧
    (freeze_token_account envExhausted ftCtxW).snd = [] ∧
    (thaw_token_account envExhausted ftCtxW).fst =
      Except.error ProgErr.derivationExhausted ∧
    (thaw_token_account envExhausted ftCtxW).snd = [] :=
  derivation_exhaustion_fails_all_authority_operations envExhausted cmCtxW 6 70
    ftCtxW rfl rfl rfl rfl
